import Mathlib

/-!
Shallow embedding of `pilot/eventservice/workexecutor/plugins/raythenaexecutor.py`
(class `GenericExecutor`): the event-service executor that appends every
outcome message to an audit log, reports failed messages immediately, queues
finished messages, stages them out in throttled batches, cleans up produced
files, and runs the supervision loop `run`.

External collaborators (the ESProcess worker, `update_events`, the logger,
the filesystem) are modelled as effect traces: every report handed to
`update_events` is appended to a trace, and the cleanup loop produces a
trace of filesystem-facing effects.  Exceptions are modelled with `Except`,
the error case carrying the executor state at the raise point, mirroring
that Python state mutations survive an unwinding exception.
-/

namespace Raythena

/-- A parsed outcome message from the worker process (a Python dict).  The
executor reads the keys `id`, `status` and `output`; presence of the
optional `output` key is modelled by `Option`. -/
structure Msg where
  id : String
  status : String
  output : Option String
  deriving Repr, DecidableEq

/-- One record of a finished-range report, as built in
`update_finished_event_ranges`. -/
structure FinishedRange where
  eventRangeID : String
  eventStatus : String
  fileLocation : String
  deriving Repr, DecidableEq

/-- One record of a failed-range report, as built in
`update_failed_event_ranges`. -/
structure FailedRange where
  errorCode : Nat
  eventRangeID : String
  eventStatus : String
  deriving Repr, DecidableEq

/-- One message handed to `update_events`, i.e. one report forwarded to the
job-update interface.  The finished form carries `version`, the
`esOutput.numEvents` count and the `eventRanges` records; the failed form
carries `version` and its records. -/
inductive Report where
  | finished (version : Nat) (numEvents : Nat) (ranges : List FinishedRange)
  | failed (version : Nat) (ranges : List FailedRange)
  deriving Repr, DecidableEq

/-- The part of the job handle the executor reads and mutates: the event
counter `nevents` and the queue configuration
`infosys.queuedata.es_stageout_gap`. -/
structure Job where
  nevents : Nat
  es_stageout_gap : Nat
  deriving Repr, DecidableEq

/-- Mutable state of one `GenericExecutor` instance together with the trace
of reports forwarded via `update_events`:
`queued` is `__queued_out_messages`, `lastStageout` is
`__last_stageout_time`, `allMsgs` is `__all_out_messages`. -/
structure ExecState where
  queued : List Msg
  lastStageout : Option Nat
  allMsgs : List Msg
  job : Job
  reports : List Report
  deriving Repr, DecidableEq

/-- The status written into a failure record:
`message['status'] if message['status'] in ['failed', 'fatal'] else 'failed'`. -/
def failedStatus (st : String) : String :=
  if st = "failed" ∨ st = "fatal" then st else "failed"

/-- `GenericExecutor.update_finished_event_ranges`: returns at once on an
empty batch; otherwise builds one record per message, sends a single
version-1 report whose `numEvents` is the record count, and then increments
`job.nevents` by that count.  Reading a missing `output` key raises a
`KeyError` while the record list is being built, before any report is sent:
the error case carries the state unchanged. -/
def update_finished_event_ranges (s : ExecState) (msgs : List Msg) :
    Except ExecState ExecState :=
  if msgs.length = 0 then .ok s
  else
    match msgs.mapM (fun m => (m.output).map (fun o => FinishedRange.mk m.id "finished" o)) with
    | none => .error s
    | some ranges =>
        .ok { s with
                reports := s.reports ++ [Report.finished 1 ranges.length ranges],
                job := { s.job with nevents := s.job.nevents + ranges.length } }

/-- `GenericExecutor.update_failed_event_ranges`: returns at once on an
empty batch; otherwise loops over the messages, and — as in the source,
where the `event_range_message` construction and the `update_events` call
sit inside the loop — sends one report per message, the k-th report
containing the first k accumulated records. -/
def update_failed_event_ranges (s : ExecState) (msgs : List Msg) : ExecState :=
  if msgs.length = 0 then s
  else
    (msgs.foldl
      (fun (acc : List FailedRange × ExecState) m =>
        let ranges := acc.1 ++ [FailedRange.mk 1220 m.id (failedStatus m.status)]
        (ranges, { acc.2 with reports := acc.2.reports ++ [Report.failed 0 ranges] }))
      ([], s)).2

/-- `GenericExecutor.handle_out_message`: append the message to
`__all_out_messages` unconditionally; report a failed or fatal message
immediately as a singleton batch; queue any other message. -/
def handle_out_message (s : ExecState) (m : Msg) : ExecState :=
  let s1 := { s with allMsgs := s.allMsgs ++ [m] }
  if m.status = "failed" ∨ m.status = "fatal" then
    update_failed_event_ranges s1 [m]
  else
    { s1 with queued := s1.queued ++ [m] }

/-- The stage-out gate of `GenericExecutor.stageout_es`: `force`, or no
prior stage-out time recorded, or `now` strictly beyond the recorded time
plus `es_stageout_gap`. -/
def stageoutDue (s : ExecState) (force : Bool) (now : Nat) : Bool :=
  force ||
    (match s.lastStageout with
     | none => true
     | some t => decide (now > t + s.job.es_stageout_gap))

/-- `GenericExecutor.stageout_es`: nothing happens on an empty queue or when
the gate is closed; otherwise the queue is drained by popping from the end
(hence the reversal) and the batch is handed to
`update_finished_event_ranges`.  The source never assigns
`__last_stageout_time`, so `lastStageout` is left as it was. -/
def stageout_es (s : ExecState) (force : Bool) (now : Nat) :
    Except ExecState ExecState :=
  if s.queued.length = 0 then .ok s
  else if stageoutDue s force now then
    update_finished_event_ranges { s with queued := [] } s.queued.reverse
  else .ok s

/-- Extract the executor state from either branch of an `Except`-valued
step (both branches carry the state after the step). -/
def getState : Except ExecState ExecState → ExecState
  | .ok s => s
  | .error s => s

/-- Filesystem-facing effects of the cleanup loop in
`GenericExecutor.clean`.  The source logs "Removing es premerge file" for
each kept entry; the `os.remove` call on the next line is commented out, so
`osRemove` is never emitted, and the `except` branch that would emit
`logRemoveFailed` is unreachable. -/
inductive CleanEffect where
  | logRemoving (path : String)
  | logRemoveFailed (path : String)
  | osRemove (path : String)
  deriving Repr, DecidableEq

/-- Effects the cleanup loop body produces for one audit-log entry: a
failed or fatal entry is skipped; an entry whose `output` key is present
enters the try block, which only logs, the removal itself being commented
out in the source; an entry without an `output` key falls through both
branches. -/
def cleanMsgEffects (m : Msg) : List CleanEffect :=
  if m.status = "failed" ∨ m.status = "fatal" then []
  else
    match m.output with
    | some o => [CleanEffect.logRemoving o]
    | none => []

/-- `GenericExecutor.clean` (state part and effect trace): one pass over
`__all_out_messages` producing the cleanup effects, then the queue, the
last stage-out time and the audit log reset to empty/initial.  Stopping the
worker process and the communicator are external effects outside this
state.  Nothing in the loop raises: per-entry failures would be caught and
logged by the inner try/except. -/
def clean (s : ExecState) : ExecState × List CleanEffect :=
  ({ s with queued := [], lastStageout := none, allMsgs := [] },
   s.allMsgs.flatMap cleanMsgEffects)

/-- Events of one execution of `run`, used to state which steps ran:
the no-payload error log, the `proc.start()` call, one poll-loop iteration,
one `clean()` call. -/
inductive REvent where
  | logNoPayloadError
  | procStarted
  | tick
  | cleanCalled
  deriving Repr, DecidableEq

/-- One iteration of the poll loop as observed from outside: the messages
the out-message hook delivered since the previous tick, the value of
`is_stop()` at this tick, and the wall-clock time at the `stageout_es`
call. -/
structure LoopIter where
  incoming : List Msg
  stopSet : Bool
  now : Nat
  deriving Repr, DecidableEq

/-- The external environment of one `run()`: the payload configuration
flags, whether `ESProcess(payload)` construction raises, the finite
schedule of poll-loop iterations (the worker process is no longer alive
once it is exhausted), the time of the final forced stage-out, and the
final `proc.poll()` result or the fact that it raises. -/
structure RunEnv where
  is_set_payload : Bool
  is_retrieve_payload : Bool
  payload : String
  initRaises : Bool
  iters : List LoopIter
  finalNow : Nat
  finalPollRaises : Bool
  finalPoll : Option Int
  deriving Repr, DecidableEq

/-- Deliver a batch of hook messages through `handle_out_message`. -/
def processIncoming (s : ExecState) (msgs : List Msg) : ExecState :=
  msgs.foldl handle_out_message s

/-- The poll loop of `run()`: each iteration delivers the hook messages of
that tick, checks `is_stop()` (stopping the process and breaking when set),
and calls `stageout_es` without force; a `KeyError` inside stage-out
propagates, carrying the state at the raise point. -/
def runLoop : List LoopIter → ExecState → List REvent →
    Except (ExecState × List REvent) (ExecState × List REvent)
  | [], s, evs => .ok (s, evs)
  | it :: rest, s, evs =>
      let s1 := processIncoming s it.incoming
      let evs1 := evs ++ [REvent.tick]
      if it.stopSet then .ok (s1, evs1)
      else
        match stageout_es s1 false it.now with
        | .error se => .error (se, evs1)
        | .ok s2 => runLoop rest s2 evs1

/-- The body of `run()` up to the except handler.  When neither payload
source is configured the source only logs an error, leaving the local
variable `payload` unbound, so its very next use raises and nothing below
it runs.  Otherwise: `ESProcess(payload)` construction and start, the poll
loop, the final forced `stageout_es`, `clean()`, and the final
`proc.poll()`.  The error case carries the state and the events at the
raise point. -/
def runBody (env : RunEnv) (s : ExecState) :
    Except (ExecState × List REvent) (ExecState × List REvent × Option Int) :=
  if env.is_set_payload || env.is_retrieve_payload then
    if env.initRaises then .error (s, [])
    else
      match runLoop env.iters s [REvent.procStarted] with
      | .error r => .error r
      | .ok (s2, evs2) =>
          match stageout_es s2 true env.finalNow with
          | .error se => .error (se, evs2)
          | .ok s3 =>
              let s4 := (clean s3).1
              let evs3 := evs2 ++ [REvent.cleanCalled]
              if env.finalPollRaises then .error (s4, evs3)
              else .ok (s4, evs3, env.finalPoll)
  else .error (s, [REvent.logNoPayloadError])

/-- `GenericExecutor.run`: the whole body runs inside one try/except; on
any exception the handler logs it, invokes `clean()` once more, and stores
the sentinel exit code `-1`.  The result is the final state, the event
trace and the stored `exit_code`. -/
def run (env : RunEnv) (s : ExecState) : ExecState × List REvent × Option Int :=
  match runBody env s with
  | .ok r => r
  | .error (se, evs) => ((clean se).1, evs ++ [REvent.cleanCalled], some (-1))

/-- Recognizer for the actual file-removal effect, used to state that the
cleanup loop performs none. -/
def isOsRemove : CleanEffect → Bool
  | CleanEffect.osRemove _ => true
  | _ => false

/-! Concrete inputs used by witnesses and counterexamples. -/

/-- A finished message with an output path. -/
def msgR1 : Msg := ⟨"r1", "finished", some "/tmp/r1.out"⟩

/-- A second finished message with an output path. -/
def msgR2 : Msg := ⟨"r2", "finished", some "/tmp/r2.out"⟩

/-- A failed message. -/
def msgF1 : Msg := ⟨"f1", "failed", none⟩

/-- A fatal message. -/
def msgF2 : Msg := ⟨"f2", "fatal", none⟩

/-- A finished message without an output key. -/
def msgNoOut : Msg := ⟨"n1", "finished", none⟩

/-- A fresh executor state with a 600-unit stage-out gap. -/
def sEmpty : ExecState := ⟨[], none, [], ⟨0, 600⟩, []⟩

/-- State with one finished message queued and audited. -/
def sOneQueued : ExecState := ⟨[msgR1], none, [msgR1], ⟨0, 600⟩, []⟩

/-- For C1: the state after the first non-forced flush of `sOneQueued` at
time 0, with a second finished message arriving afterwards. -/
def sC1second : ExecState :=
  handle_out_message (getState (stageout_es sOneQueued false 0)) msgR2

/-- For C6: audit log holding one finished entry with an output path. -/
def sC6 : ExecState := ⟨[], none, [msgR1], ⟨1, 600⟩, []⟩

/-- For C2: a run environment in which the body raises (no payload source
is configured). -/
def envNoPayload : RunEnv := ⟨false, false, "", false, [], 0, false, none⟩

/-- For C8: no payload source configured, yet a poll-loop schedule is
present — the loop must never be reached. -/
def envC8 : RunEnv :=
  ⟨false, false, "", false, [⟨[msgR1], false, 0⟩], 7, false, some 0⟩

/-- For C8: a nonequal-to-initial state, to show `clean` is still applied. -/
def sC8 : ExecState := ⟨[msgR1], some 3, [msgR1], ⟨2, 600⟩, []⟩

/-- For C2: a state with queued and audited messages at the raise point. -/
def sRun : ExecState := ⟨[msgR1], none, [msgR1, msgF1], ⟨5, 600⟩, []⟩

/-! Helper lemmas. -/

/-- Building the finished records succeeds and is a plain map once every
message carries an `output` key. -/
theorem mapM_finished_ranges (msgs : List Msg)
    (h : ∀ m ∈ msgs, (m.output).isSome) :
    msgs.mapM (fun m => (m.output).map (fun o => FinishedRange.mk m.id "finished" o)) =
      some (msgs.map (fun m => FinishedRange.mk m.id "finished" ((m.output).getD ""))) := by
  induction msgs with
  | nil => rfl
  | cons a as ih =>
      obtain ⟨o, ho⟩ := Option.isSome_iff_exists.mp (h a (by simp))
      rw [List.mapM_cons, ih (fun m hm => h m (by simp [hm]))]
      simp [ho]

/-! Claim theorems. -/

/-- C9: calling `stageout_es` with an empty pending queue is a no-op for
every value of the force flag and every time: the state — in particular the
report trace, `nevents` and the last stage-out timestamp — is returned
unchanged and nothing is transmitted. -/
theorem stageout_es_empty_noop (s : ExecState) (force : Bool) (now : Nat)
    (h : s.queued = []) : stageout_es s force now = .ok s := by
  simp [stageout_es, h]

/-- Witness for C9 at a concrete empty-queue state with force set. -/
theorem stageout_es_empty_noop_witness :
    stageout_es sEmpty true 5 = .ok sEmpty :=
  stageout_es_empty_noop sEmpty true 5 rfl

/-- C4: `handle_out_message` appends the message to the audit log exactly
once whatever its status; a failed or fatal message triggers exactly one
immediate failure report containing exactly that message and leaves the
pending queue unchanged; any other message is appended to the pending
queue as a single entry and no report is made.  The job counters and the
last stage-out time are untouched in both cases. -/
theorem handle_out_message_spec (s : ExecState) (m : Msg) :
    (handle_out_message s m).allMsgs = s.allMsgs ++ [m] ∧
    (handle_out_message s m).lastStageout = s.lastStageout ∧
    (handle_out_message s m).job = s.job ∧
    (handle_out_message s m).queued =
      (if m.status = "failed" ∨ m.status = "fatal" then s.queued
       else s.queued ++ [m]) ∧
    (handle_out_message s m).reports =
      (if m.status = "failed" ∨ m.status = "fatal" then
        s.reports ++ [Report.failed 0 [FailedRange.mk 1220 m.id m.status]]
       else s.reports) := by
  by_cases h : m.status = "failed" ∨ m.status = "fatal" <;>
    simp [handle_out_message, update_failed_event_ranges, failedStatus, h]

/-- C1 (failing input): the source never assigns `__last_stageout_time`,
so after a successful non-forced flush at time 0 the timestamp is still
unset, and a second non-forced flush opportunity at time 1 — far inside
the 600-unit minimum gap — transmits a second report instead of being
throttled. -/
theorem stageout_gap_not_enforced :
    (getState (stageout_es sOneQueued false 0)).lastStageout = none ∧
    (getState (stageout_es sOneQueued false 0)).reports.length = 1 ∧
    (getState (stageout_es sC1second false 1)).reports.length = 2 := by
  decide

/-- C3 (failing input): for a batch of two failed messages the loop sends
two reports — the first containing only the first record — instead of one
report containing one record per message. -/
theorem update_failed_incremental_reports :
    (update_failed_event_ranges sEmpty [msgF1, msgF2]).reports =
      [Report.failed 0 [FailedRange.mk 1220 "f1" "failed"],
       Report.failed 0 [FailedRange.mk 1220 "f1" "failed",
                        FailedRange.mk 1220 "f2" "fatal"]] := by
  decide

/-- The cleanup loop body never produces an `osRemove` effect for any
entry: the removal call is commented out in the source. -/
theorem cleanMsgEffects_no_osRemove (m : Msg) :
    (cleanMsgEffects m).filter isOsRemove = [] := by
  unfold cleanMsgEffects
  split
  · rfl
  · split <;> simp [isOsRemove]

/-- C5: a flush of a nonempty queue of finished messages, each carrying an
output path, drains the whole queue, sends exactly one version-1 report
whose `numEvents` equals the queue length and which holds one
finished-record per drained message, and increments `nevents` by the queue
length; the audit log and the last stage-out time are untouched. -/
theorem stageout_es_flush_spec (s : ExecState) (force : Bool) (now : Nat)
    (hne : s.queued ≠ [])
    (hdue : stageoutDue s force now = true)
    (hout : ∀ m ∈ s.queued, (m.output).isSome) :
    stageout_es s force now = .ok
      { s with
          queued := [],
          job := { s.job with nevents := s.job.nevents + s.queued.length },
          reports := s.reports ++ [Report.finished 1 s.queued.length
            (s.queued.reverse.map (fun m =>
              FinishedRange.mk m.id "finished" ((m.output).getD "")))] } := by
  have h0 : ¬ (s.queued.length = 0) := by simpa [List.length_eq_zero] using hne
  have h0r : ¬ (s.queued.reverse.length = 0) := by
    simpa [List.length_eq_zero] using hne
  have hmap := mapM_finished_ranges s.queued.reverse
    (fun m hm => hout m (List.mem_reverse.mp hm))
  simp only [stageout_es, if_neg h0, hdue, if_true,
    update_finished_event_ranges, if_neg h0r, hmap]
  simp

/-- Witness for C5 at a concrete one-message queue with force set. -/
theorem stageout_es_flush_spec_witness :
    stageout_es sOneQueued true 0 = .ok
      { sOneQueued with
          queued := [],
          job := { sOneQueued.job with
                     nevents := sOneQueued.job.nevents + sOneQueued.queued.length },
          reports := sOneQueued.reports ++ [Report.finished 1 sOneQueued.queued.length
            (sOneQueued.queued.reverse.map (fun m =>
              FinishedRange.mk m.id "finished" ((m.output).getD "")))] } :=
  stageout_es_flush_spec sOneQueued true 0 (by decide) (by decide) (by decide)

/-- C6 (failing input): on an audit log holding one finished entry with an
output path, `clean` only logs the removal message; more generally no
`osRemove` effect is ever produced — the removal call is commented out in
the source — so the artifact is not removed. -/
theorem clean_removes_nothing :
    (clean sC6).2 = [CleanEffect.logRemoving "/tmp/r1.out"] ∧
    ∀ s : ExecState, ((clean s).2.filter isOsRemove) = [] := by
  constructor
  · decide
  · intro s
    show ((s.allMsgs.flatMap cleanMsgEffects).filter isOsRemove) = []
    induction s.allMsgs with
    | nil => rfl
    | cons a as ih =>
        simp [List.filter_append, cleanMsgEffects_no_osRemove, ih]

/-- C7: `clean` is idempotent: after one call the pending queue, the audit
log and the last stage-out time are empty/initial, and a second call in a
row produces no removal attempt at all (an empty effect trace), raises
nothing, and returns the same state. -/
theorem clean_idempotent (s : ExecState) :
    (clean s).1.queued = [] ∧ (clean s).1.allMsgs = [] ∧
    (clean s).1.lastStageout = none ∧
    clean (clean s).1 = ((clean s).1, []) := by
  simp [clean]

/-- C10: an audit-log entry whose status is neither failed nor fatal and
which has no `output` key contributes nothing to `clean`: its loop body
produces no effect — no removal attempt and no raise — and appending it to
the audit log leaves the cleanup effect trace unchanged. -/
theorem clean_skips_entry_without_output (s : ExecState) (m : Msg)
    (h1 : m.status ≠ "failed") (h2 : m.status ≠ "fatal")
    (h3 : m.output = none) :
    cleanMsgEffects m = [] ∧
    (clean { s with allMsgs := s.allMsgs ++ [m] }).2 = (clean s).2 := by
  have he : cleanMsgEffects m = [] := by simp [cleanMsgEffects, h1, h2, h3]
  exact ⟨he, by simp [clean, he]⟩

/-- Witness for C10: a finished entry without an output key, appended to an
audit log that holds a removable entry. -/
theorem clean_skips_entry_without_output_witness :
    cleanMsgEffects msgNoOut = [] ∧
    (clean { sC6 with allMsgs := sC6.allMsgs ++ [msgNoOut] }).2 = (clean sC6).2 :=
  clean_skips_entry_without_output sC6 msgNoOut (by decide) (by decide) rfl

/-- C2: whenever the body of `run` raises anywhere — modelled by `runBody`
returning the error state at the raise point — `run` catches it at the top
level: `clean` is invoked once more on that state (the `cleanCalled` count
grows by exactly one), and the stored exit code is the sentinel `-1`.  No
exception escapes: `run` is a total function on every environment. -/
theorem run_catches_exceptions (env : RunEnv) (s se : ExecState)
    (evs : List REvent) (h : runBody env s = .error (se, evs)) :
    run env s = ((clean se).1, evs ++ [REvent.cleanCalled], some (-1)) ∧
    (run env s).2.2 = some (-1) ∧
    (run env s).2.1.count REvent.cleanCalled = evs.count REvent.cleanCalled + 1 := by
  have hr : run env s = ((clean se).1, evs ++ [REvent.cleanCalled], some (-1)) := by
    unfold run; rw [h]
  refine ⟨hr, by rw [hr], ?_⟩
  rw [hr]
  simp

/-- Witness for C2 at an environment whose body raises at the payload
step, with pending and audited messages in the state. -/
theorem run_catches_exceptions_witness :
    run envNoPayload sRun =
      ((clean sRun).1, [REvent.logNoPayloadError] ++ [REvent.cleanCalled], some (-1)) ∧
    (run envNoPayload sRun).2.2 = some (-1) ∧
    (run envNoPayload sRun).2.1.count REvent.cleanCalled =
      [REvent.logNoPayloadError].count REvent.cleanCalled + 1 :=
  run_catches_exceptions envNoPayload sRun sRun [REvent.logNoPayloadError] rfl

/-- C8: when neither a pre-set payload exists nor retrieval is configured,
`run` logs the no-payload error, never starts the worker process, never
executes a poll-loop iteration, and completes with the failure exit code
`-1` (after a best-effort clean). -/
theorem run_no_payload_fails (env : RunEnv) (s : ExecState)
    (h1 : env.is_set_payload = false) (h2 : env.is_retrieve_payload = false) :
    run env s = ((clean s).1, [REvent.logNoPayloadError, REvent.cleanCalled], some (-1)) ∧
    REvent.logNoPayloadError ∈ (run env s).2.1 ∧
    REvent.procStarted ∉ (run env s).2.1 ∧
    REvent.tick ∉ (run env s).2.1 ∧
    (run env s).2.2 = some (-1) := by
  have hb : runBody env s = .error (s, [REvent.logNoPayloadError]) := by
    simp [runBody, h1, h2]
  have hr : run env s =
      ((clean s).1, [REvent.logNoPayloadError, REvent.cleanCalled], some (-1)) := by
    unfold run; rw [hb]; rfl
  refine ⟨hr, ?_, ?_, ?_, by rw [hr]⟩ <;> rw [hr] <;> simp

/-- Witness for C8: no payload source configured even though a poll-loop
schedule exists; the loop is still never reached. -/
theorem run_no_payload_fails_witness :
    run envC8 sC8 = ((clean sC8).1, [REvent.logNoPayloadError, REvent.cleanCalled], some (-1)) ∧
    REvent.logNoPayloadError ∈ (run envC8 sC8).2.1 ∧
    REvent.procStarted ∉ (run envC8 sC8).2.1 ∧
    REvent.tick ∉ (run envC8 sC8).2.1 ∧
    (run envC8 sC8).2.2 = some (-1) :=
  run_no_payload_fails envC8 sC8 rfl rfl

end Raythena
